import Mathlib

/-!
Shallow embedding of the alertBot repository (src/main.py, src/ui_bot_handler.py,
src/flask_app.py, src/attached_assets/main.py) and proofs about its behaviour.

Conventions of the embedding:
* Python strings are Lean `String`s; `str.lower()` is `pyLower` (ASCII case folding,
  which agrees with Python on the ASCII and Persian characters occurring here).
* Python's substring test `needle in hay` is `isInfixB`.
* Module-level mutable globals are threaded explicitly as a state record.
* Network calls that can raise are driven by explicit Boolean / enumerated oracles
  saying whether the underlying call succeeds; the embedded function performs
  exactly the control flow the Python code performs on each outcome.
* `await`-suspension points that block indefinitely are represented by a final
  outcome constructor rather than by a returned value.
-/

namespace AlertBot

/-! ### Python string primitives -/

/-- Python `str.lower()`, restricted to ASCII case mapping. The characters appearing in the
repository's keyword set and prompts are ASCII letters or Persian letters, on which
Python's `lower` agrees with per-`Char` ASCII lowering (Persian has no case). -/
def pyLower (s : String) : String := String.mk (s.data.map Char.toLower)

/-- Prefix test written out: does `n` occur at the head of `h`? -/
def isPrefixB : List Char → List Char → Bool
  | [], _ => true
  | _ :: _, [] => false
  | a :: as, b :: bs => a == b && isPrefixB as bs

/-- Python's `needle in hay` on strings: `n` occurs contiguously somewhere in `h`. -/
def isInfixB (n : List Char) : List Char → Bool
  | [] => isPrefixB n []
  | b :: bs => isPrefixB n (b :: bs) || isInfixB n bs

/-- Substring test on `String`s (Python `needle in hay`). -/
def strContains (hay needle : String) : Bool := isInfixB needle.data hay.data

/-! ### src/attached_assets/main.py — Message Pipeline -/

/-- The fixed keyword list of `contains_ui_keywords`. -/
def keywords : List String := ["UI", "UX", "interface", "figma", "فرانت", "طراحی رابط"]

/-- Model of `contains_ui_keywords(text)`: `any(k.lower() in text.lower() for k in keywords)`. -/
def contains_ui_keywords (text : String) : Bool :=
  keywords.any fun k => strContains (pyLower text) (pyLower k)

/-- Python `\w` (`re.UNICODE`) restricted to the ASCII range: letters, digits and
underscore. (Python additionally matches non-ASCII word characters; no claim here
involves a non-ASCII handle.) The regex class is `[\w\d_]`, which is the same set. -/
def isWordChar (c : Char) : Bool := c.isAlphanum || c == '_'

/-- Greedy `+` over the word-character class: longest word-character run at the head. -/
def takeWordChars : List Char → List Char
  | [] => []
  | c :: cs => if isWordChar c then c :: takeWordChars cs else []

/-- Model of the Python regex search for `@`-handles: leftmost match, greedy; `None` if absent. -/
def extractUsernameChars : List Char → Option (List Char)
  | [] => none
  | '@' :: cs =>
      match cs with
      | c :: _ =>
          if isWordChar c then some ('@' :: takeWordChars cs)
          else extractUsernameChars cs
      | [] => none
  | _ :: cs => extractUsernameChars cs

/-- Model of `extract_username(text)`: `match.group(0)` of the leftmost `@[\w\d_]+` match. -/
def extract_username (text : String) : Option String :=
  (extractUsernameChars text.data).map String.mk

/-- The fixed apology fallback returned by `generate_custom_message` when the
Gemini call raises. -/
def apologyFallback : String :=
  "متاسفانه در حال حاضر امکان تولید پیام خودکار وجود ندارد. لطفا بعدا تلاش کنید."

/-- Model of `generate_custom_message(text, api_key)`: the generative collaborator either
returns `response.text` (`genResult = some t`) or raises (`genResult = none`); the
`except` branch substitutes the fixed apology string and never re-raises. -/
def generate_custom_message (genResult : Option String) : String :=
  match genResult with
  | some t => t
  | none => apologyFallback

/-- Outbound Telegram operations performed by `send_message_to_user`. -/
inductive SendEffect where
  | sendText (target text : String)
  | sendFileAttempt (target caption : String)
  deriving DecidableEq, Repr

/-- Caption of the résumé file send: `f"فایل رزومه اینجانب.\nنمونه‌کار: {portfolio_url}"`. -/
def cvCaption (portfolio_url : String) : String :=
  "فایل رزومه اینجانب.\nنمونه‌کار: " ++ portfolio_url

/-- Fallback text when `client.send_file` raises. -/
def fileFailText (portfolio_url : String) : String :=
  "(خطا در ارسال فایل رزومه. لینک نمونه کار: " ++ portfolio_url ++ ")"

/-- Fallback text when the résumé file does not exist on disk. -/
def fileMissingText (portfolio_url : String) : String :=
  "(فایل رزومه یافت نشد. لینک نمونه کار: " ++ portfolio_url ++ ")"

/-- Model of `send_message_to_user(client, username, message, portfolio_url)`:
sends the text message; then, if the résumé file exists (`fileExists`), attempts
`send_file` and on failure (`sendFileOk = false`) sends the error fallback text;
if the file is absent, sends the missing-file fallback text. -/
def send_message_to_user (fileExists sendFileOk : Bool)
    (username message portfolio_url : String) : List SendEffect :=
  SendEffect.sendText username message ::
    (if fileExists then
      if sendFileOk then
        [SendEffect.sendFileAttempt username (cvCaption portfolio_url)]
      else
        [SendEffect.sendFileAttempt username (cvCaption portfolio_url),
         SendEffect.sendText username (fileFailText portfolio_url)]
    else
      [SendEffect.sendText username (fileMissingText portfolio_url)])

/-- Model of `process_new_message(event, client, config)`: keyword gate, handle extraction,
draft, deliver. Returns the list of outbound sends (empty = post discarded). -/
def process_new_message (genResult : Option String) (fileExists sendFileOk : Bool)
    (portfolio_url text : String) : List SendEffect :=
  if contains_ui_keywords text then
    match extract_username text with
    | some username =>
        send_message_to_user fileExists sendFileOk username
          (generate_custom_message genResult) portfolio_url
    | none => []
  else []

/-! ### Response Slot state (module-level globals)

`ui_bot_handler.py` holds the module globals `user_response` and `response_event`.
`main.py` executes `from ui_bot_handler import user_response, response_event`,
which creates a *separate* binding `main.user_response` (initially aliasing the
same `None`) while `response_event` stays the one shared `asyncio.Event` object.
An assignment under `global user_response` inside `main.py` rebinds only
`main.user_response`; `ui_bot_handler.user_response` — the binding read by
`request_input_via_bot` — is unaffected. The state record keeps both bindings
plus the shared event flag. -/

structure SlotState where
  /-- Binding `ui_bot_handler.user_response`, the one read and cleared by
  `request_input_via_bot` and assigned by `flask_app.telegram_webhook`
  (via `ui_bot_handler.user_response = text`). -/
  ui_user_response : Option String
  /-- The `is_set` flag of the single shared `asyncio.Event` `response_event`. -/
  response_event : Bool
  /-- Binding `main.user_response`, the distinct module-global binding created by
  `from ui_bot_handler import user_response` and rebound by
  `main.handle_ui_bot_message`'s `global user_response` assignment. -/
  main_user_response : Option String
  deriving DecidableEq, Repr

/-- Observable side effects of the credential-relay code. -/
inductive Effect where
  | sendMessage (chat_id text : String)
  | logInfo
  | logWarn
  | logError
  | waitOnSlot
  | requestInput (prompt : String)
  | sendCodeRequest
  | signInAttempt
  | clientStart
  | joinChannels
  | setupHandler
  | runUntilDisconnected
  | processAttempt (ev : Nat)
  | sleep (seconds : Nat)
  deriving DecidableEq, Repr

/-- Exceptions relevant to the credential relay. `deliveryError` names the
spec's `DeliveryError`; the source never constructs it. -/
inductive PyError where
  | valueError
  | deliveryError
  deriving DecidableEq, Repr

/-- Where `request_input_via_bot` ends up: suspended on `response_event.wait()`,
or terminated by a propagating exception. -/
inductive BrokerOutcome where
  | waits
  | raises (e : PyError)
  deriving DecidableEq, Repr

/-! ### src/ui_bot_handler.py -/

/-- Model of `send_telegram_message(token, chat_id, message)`: the entire body is wrapped
in `try/except Exception` that logs and returns normally, so no exception ever
propagates to the caller; `sendOk` is whether the underlying
`bot.send_message` call raises. Returns (effects, propagating exception). -/
def send_telegram_message (sendOk : Bool) (chat_id message : String) :
    List Effect × Option PyError :=
  if sendOk then ([Effect.sendMessage chat_id message, Effect.logInfo], none)
  else ([Effect.sendMessage chat_id message, Effect.logError], none)

/-- The phone prompt of `get_phone_number_from_bot`. -/
def phonePrompt : String := "لطفاً شماره تلفن خود را برای ورود به تلگرام وارد کنید:"

/-- The code prompt of `get_code_from_bot`. -/
def codePrompt : String := "لطفاً کد تاییدی که از تلگرام دریافت کرده‌اید را وارد کنید:"

/-- Model of `request_input_via_bot(token, chat_id, prompt)`: sets
`user_response = None`, calls `response_event.clear()`, awaits
`send_telegram_message`, then awaits `response_event.wait()`. Returns the state
at the suspension point, the effect trace, and the outcome (it suspends unless an
exception propagated out of the send — which `send_telegram_message` never lets
happen). -/
def request_input_via_bot (sendOk : Bool) (chat_id prompt : String)
    (s : SlotState) : SlotState × List Effect × BrokerOutcome :=
  let s1 : SlotState := { s with ui_user_response := none, response_event := false }
  match send_telegram_message sendOk chat_id prompt with
  | (effs, some e) => (s1, effs, BrokerOutcome.raises e)
  | (effs, none) =>
      (s1, effs ++ [Effect.logInfo, Effect.waitOnSlot], BrokerOutcome.waits)

/-- The value `request_input_via_bot` returns once `response_event.wait()`
resumes: the then-current `ui_bot_handler.user_response`. -/
def broker_return_value (s : SlotState) : Option String := s.ui_user_response

/-- Python truthiness of an `os.getenv` result: `None` and `""` are falsy. -/
def envFalsy : Option String → Bool
  | none => true
  | some v => v == ""

/-- Model of `get_phone_number_from_bot()`: reads `BOT_TOKEN` and `CHAT_ID`; if either is
missing/empty it logs and raises `ValueError` before any send; otherwise it runs
`request_input_via_bot` with the phone prompt. -/
def get_phone_number_from_bot (sendOk : Bool) (bot_token chat_id : Option String)
    (s : SlotState) : SlotState × List Effect × BrokerOutcome :=
  if envFalsy bot_token || envFalsy chat_id then
    (s, [Effect.logError], BrokerOutcome.raises PyError.valueError)
  else
    request_input_via_bot sendOk (chat_id.getD "") phonePrompt s

/-- Model of `get_code_from_bot()`: same shape as `get_phone_number_from_bot` with the
code prompt. -/
def get_code_from_bot (sendOk : Bool) (bot_token chat_id : Option String)
    (s : SlotState) : SlotState × List Effect × BrokerOutcome :=
  if envFalsy bot_token || envFalsy chat_id then
    (s, [Effect.logError], BrokerOutcome.raises PyError.valueError)
  else
    request_input_via_bot sendOk (chat_id.getD "") codePrompt s

/-! ### src/main.py — handle_ui_bot_message (bot-API listener) -/

/-- An inbound control-bot update: `update.effective_chat.id` (stringified) and
`update.message.text`. -/
structure Update where
  chat_id : String
  text : String
  deriving DecidableEq, Repr

/-- Model of `main.handle_ui_bot_message(update, context)`. If `CHAT_ID` is unset it sends
a configuration-error notice and returns. If the origin chat matches, it executes
`user_response = update.message.text` — which, under `global user_response` in
`main.py` after a `from ui_bot_handler import user_response`, rebinds
`main.user_response` only — and then `response_event.set()` on the shared event.
On mismatch it sends an "Unauthorized access." notice and leaves the slot alone. -/
def handle_ui_bot_message (chat_id_env : Option String) (update : Update)
    (s : SlotState) : SlotState × List Effect :=
  match chat_id_env with
  | none =>
      (s, [Effect.logError,
           Effect.sendMessage update.chat_id "Bot configuration error: CHAT_ID not set."])
  | some cid =>
      if cid == "" then
        (s, [Effect.logError,
             Effect.sendMessage update.chat_id "Bot configuration error: CHAT_ID not set."])
      else if update.chat_id == cid then
        ({ s with main_user_response := some update.text, response_event := true },
         [Effect.logInfo])
      else
        (s, [Effect.logWarn, Effect.sendMessage update.chat_id "Unauthorized access."])

/-! ### src/flask_app.py — POST /webhook listener -/

/-- A Telegram message object inside the webhook JSON body: `chat.id` (an integer
when present) and optional `text`. -/
structure WebhookMsg where
  chat_id : Option Int
  text : Option String
  deriving DecidableEq, Repr

/-- A parsed webhook body: optional `message` and `edited_message` objects. -/
structure WebhookBody where
  message : Option WebhookMsg
  edited_message : Option WebhookMsg
  deriving DecidableEq, Repr

/-- The HTTP response of the Flask endpoint. -/
structure HttpResponse where
  status : Nat
  body : String
  deriving DecidableEq, Repr

/-- Response `jsonify(\x7b"ok": True\x7d)` with Flask's default status. -/
def okResponse : HttpResponse := ⟨200, "\x7b\"ok\": true\x7d"⟩

/-- Python `str(...)` of `msg.get("chat", {}).get("id")`. -/
def strOfChatId : Option Int → String
  | none => "None"
  | some n => toString n

/-- Model of `flask_app.telegram_webhook()`: takes `message` or `edited_message` (first
present one); with no message, replies ok immediately. Otherwise compares
`str(chat.id)` with `os.getenv("CHAT_ID")` (a `str == None` comparison is simply
false); on match assigns `ui_bot_handler.user_response = text` (the real
module attribute) and sets the shared event. Every path returns
`{"ok": true}` with status 200. -/
def telegram_webhook (chat_id_env : Option String) (body : WebhookBody)
    (s : SlotState) : SlotState × HttpResponse :=
  match body.message.orElse (fun _ => body.edited_message) with
  | none => (s, okResponse)
  | some msg =>
      let cid := strOfChatId msg.chat_id
      let text := msg.text.getD ""
      if chat_id_env == some cid then
        ({ s with ui_user_response := some text, response_event := true }, okResponse)
      else
        (s, okResponse)

/-! ### src/main.py — TelegramUIBot.authenticate / start

The Telethon client is driven by an oracle recording what each protocol call
does; `authenticate` performs exactly the `try/except/finally` control flow of
lines 69–137 on those outcomes. -/

/-- Outcome of `client.sign_in(password='dummy')` (line 88): it either returns
normally, raises one of the four caught exception classes, or raises something
else (which escapes the inner `except` and is caught by the outer handler). -/
inductive SignInOutcome where
  | ok
  | sessionPasswordNeeded
  | phoneCodeEmpty
  | phoneCodeExpired
  | passwordHashInvalid
  | otherError
  deriving DecidableEq, Repr

/-- Oracle for the protocol endpoint during one authentication attempt. -/
structure AuthOracle where
  /-- Whether `await self.client.start()` (line 78) succeeds. -/
  startOk : Bool
  /-- Result of `is_user_authorized()` right after `start` (line 81). -/
  authorizedAfterStart : Bool
  /-- What `sign_in(password='dummy')` does. -/
  dummySignIn : SignInOutcome
  /-- Whether `BOT_TOKEN` and `CHAT_ID` are both set (so the `get_*_from_bot` helpers do
  not raise `ValueError`). -/
  envOk : Bool
  /-- Whether `send_code_request(phone)` (line 98) succeeds. -/
  sendCodeOk : Bool
  /-- Whether `sign_in(phone, code)` (line 102) succeeds. -/
  signInOk : Bool
  /-- Result of `is_user_authorized()` after the interactive branch (lines 119 and 127;
  nothing touches the session between the two calls, so they agree). -/
  authorizedAfterInteractive : Bool
  deriving DecidableEq, Repr

/-- Result of one call to `TelegramUIBot.authenticate`: the Python return value
(`none` = the bare `return` of the re-entrancy guard, `some b` = `return b`),
the `_auth_in_progress` flag afterwards, and the effect trace. -/
structure AuthResult where
  ret : Option Bool
  auth_in_progress : Bool
  effects : List Effect
  deriving DecidableEq, Repr

/-- Lines 119–131: `if is_user_authorized(): log else: log; return False` followed
by `if not is_user_authorized(): return False` and `return True`. The flag is
reset by `finally`. -/
def authCheckTail (o : AuthOracle) (effs : List Effect) : AuthResult :=
  if o.authorizedAfterInteractive then ⟨some true, false, effs ++ [Effect.logInfo]⟩
  else ⟨some false, false, effs ++ [Effect.logError]⟩

/-- Model of `TelegramUIBot.authenticate(self)` (src/main.py lines 69–137), over the
oracle `o`, entered with `_auth_in_progress = inProgress`. The re-entrancy guard
returns `None` before the `try`, so it does not touch the flag; every path that
enters the `try` leaves through `finally`, which clears the flag. Any exception
inside the `try` not handled by the inner `except` tuple reaches the outer
`except Exception` and yields `return False`. -/
def authenticate (o : AuthOracle) (inProgress : Bool) : AuthResult :=
  if inProgress then ⟨none, inProgress, [Effect.logWarn]⟩
  else if !o.startOk then ⟨some false, false, [Effect.clientStart, Effect.logError]⟩
  else if o.authorizedAfterStart then
    -- the interactive block is skipped; line 127 re-checks authorization
    ⟨some true, false, [Effect.clientStart, Effect.logInfo]⟩
  else
    match o.dummySignIn with
    | .ok =>
        authCheckTail o [Effect.clientStart, Effect.signInAttempt]
    | .otherError =>
        ⟨some false, false, [Effect.clientStart, Effect.signInAttempt, Effect.logError]⟩
    | .sessionPasswordNeeded =>
        -- lines 106–113: log a warning and an error; the password prompt is
        -- commented out, no broker call happens
        authCheckTail o
          [Effect.clientStart, Effect.signInAttempt, Effect.logWarn, Effect.logError]
    | .passwordHashInvalid =>
        authCheckTail o [Effect.clientStart, Effect.signInAttempt, Effect.logError]
    | .phoneCodeEmpty | .phoneCodeExpired =>
        if !o.envOk then
          -- `get_phone_number_from_bot` raises ValueError → outer except
          ⟨some false, false, [Effect.clientStart, Effect.signInAttempt, Effect.logError]⟩
        else if !o.sendCodeOk then
          ⟨some false, false,
            [Effect.clientStart, Effect.signInAttempt, Effect.requestInput phonePrompt,
             Effect.sendCodeRequest, Effect.logError]⟩
        else if !o.signInOk then
          ⟨some false, false,
            [Effect.clientStart, Effect.signInAttempt, Effect.requestInput phonePrompt,
             Effect.sendCodeRequest, Effect.requestInput codePrompt,
             Effect.signInAttempt, Effect.logError]⟩
        else
          authCheckTail o
            [Effect.clientStart, Effect.signInAttempt, Effect.requestInput phonePrompt,
             Effect.sendCodeRequest, Effect.requestInput codePrompt, Effect.signInAttempt]

/-- Is an effect a Remote Input Broker invocation (`request_input`)? -/
def Effect.isRequestInput : Effect → Bool
  | Effect.requestInput _ => true
  | _ => false

/-- Model of `TelegramUIBot.start(self)` (src/main.py lines 183–213), up to the point
where the client loop runs: initialization failure returns `False`;
`if not await self.authenticate(): return False` stops before `join_channels`
(both the `None` of the guard and `False` are falsy); only on a truthy
authentication result does it join channels, set up the message handler and run
until disconnected. A fresh `TelegramUIBot` has `_auth_in_progress = False`. -/
def start (initOk : Bool) (o : AuthOracle) : Bool × List Effect :=
  if !initOk then (false, [Effect.logError])
  else
    let r := authenticate o false
    match r.ret with
    | some true =>
        (true, r.effects ++ [Effect.logInfo, Effect.joinChannels, Effect.setupHandler,
                             Effect.runUntilDisconnected])
    | _ => (false, r.effects ++ [Effect.logError])

/-! ### src/main.py — message_handler / dispatcher (lines 171–179) -/

/-- What `message_processor.process_message(event, client)` does on one event:
returns, raises `FloodWaitError` with `e.seconds`, or raises something else. -/
inductive ProcResult where
  | ok
  | floodWait (seconds : Nat)
  | otherError
  deriving DecidableEq, Repr

/-- The `message_handler` coroutine registered on `events.NewMessage`: attempt
processing; on `FloodWaitError` log a warning and `await asyncio.sleep(e.seconds)`;
on any other exception log an error. Nothing is retried or requeued. -/
def message_handler (res : ProcResult) (ev : Nat) : List Effect :=
  Effect.processAttempt ev ::
    match res with
    | .ok => []
    | .floodWait n => [Effect.logWarn, Effect.sleep n]
    | .otherError => [Effect.logError]

/-- The event loop delivering a sequence of channel events to `message_handler`
one at a time (a sleep inside the handler delays everything after it). -/
def dispatch (res : Nat → ProcResult) : List Nat → List Effect
  | [] => []
  | e :: es => message_handler (res e) e ++ dispatch res es

/-! ### Helper lemmas -/

theorem isPrefixB_append_self (n l : List Char) : isPrefixB n (n ++ l) = true := by
  induction n with
  | nil => rfl
  | cons a as ih => simp [isPrefixB, ih]

theorem isInfixB_of_isPrefixB {n l : List Char} (h : isPrefixB n l = true) :
    isInfixB n l = true := by
  cases l with
  | nil => cases n with
    | nil => rfl
    | cons a as => simp [isPrefixB] at h
  | cons b bs => simp [isInfixB, h]

theorem isInfixB_cons {n bs : List Char} (b : Char) (h : isInfixB n bs = true) :
    isInfixB n (b :: bs) = true := by
  simp [isInfixB, h]

theorem isInfixB_append_self (l₁ n l₂ : List Char) :
    isInfixB n (l₁ ++ (n ++ l₂)) = true := by
  induction l₁ with
  | nil => exact isInfixB_of_isPrefixB (isPrefixB_append_self n l₂)
  | cons b bs ih => exact isInfixB_cons b ih

/-- A string built as `a ++ s ++ b` contains `s` as a substring. -/
theorem strContains_of_append (a s b : String) : strContains (a ++ s ++ b) s = true := by
  have h : (a ++ s ++ b).data = a.data ++ (s.data ++ b.data) := by
    simp [String.data_append]
  simp only [strContains, h]
  exact isInfixB_append_self a.data s.data b.data

/-- The error-fallback text contains the portfolio link. -/
theorem fileFailText_contains (portfolio_url : String) :
    strContains (fileFailText portfolio_url) portfolio_url = true :=
  strContains_of_append _ portfolio_url _

/-- The missing-file fallback text contains the portfolio link. -/
theorem fileMissingText_contains (portfolio_url : String) :
    strContains (fileMissingText portfolio_url) portfolio_url = true :=
  strContains_of_append _ portfolio_url _

/-! ### Claim theorems -/

/-- C7: the Message Pipeline drafts and sends a reply iff the post text passes
the case-insensitive keyword gate and a `@handle` token is found; otherwise the
post is discarded with no outbound action. Includes the spec's concrete gate
examples. -/
theorem pipeline_sends_iff_gates_pass :
    (∀ (genResult : Option String) (fileExists sendFileOk : Bool)
        (portfolio_url text : String),
       process_new_message genResult fileExists sendFileOk portfolio_url text ≠ [] ↔
         (contains_ui_keywords text = true ∧ (extract_username text).isSome = true))
    ∧ contains_ui_keywords "Looking for a Figma designer" = true
    ∧ contains_ui_keywords "Need a backend engineer" = false
    ∧ extract_username "Contact @designer_jane for details" = some "@designer_jane"
    ∧ extract_username "no handle here" = none := by
  refine ⟨?_, by decide, by decide, by decide, by decide⟩
  intro genResult fileExists sendFileOk portfolio_url text
  unfold process_new_message
  by_cases hk : contains_ui_keywords text = true
  · simp only [hk, if_true]
    cases hu : extract_username text with
    | none => simp [hu]
    | some u => simp [hu, send_message_to_user]
  · simp [hk]

/-- C8: once a post is matched, the target receives some reply even in degraded
mode: on generative failure the sent text is the fixed apology string and the
attachment step still proceeds; on missing attachment file or failed file send,
a text message containing the portfolio link is sent instead. -/
theorem matched_post_always_replied
    (genResult : Option String) (fileExists sendFileOk : Bool)
    (portfolio_url text u : String)
    (hk : contains_ui_keywords text = true)
    (hu : extract_username text = some u) :
    (SendEffect.sendText u (generate_custom_message genResult) ∈
        process_new_message genResult fileExists sendFileOk portfolio_url text)
    ∧ (genResult = none →
        (process_new_message genResult fileExists sendFileOk portfolio_url text).head? =
            some (SendEffect.sendText u apologyFallback)
        ∧ 2 ≤ (process_new_message genResult fileExists sendFileOk portfolio_url text).length)
    ∧ (fileExists = false →
        SendEffect.sendText u (fileMissingText portfolio_url) ∈
            process_new_message genResult fileExists sendFileOk portfolio_url text
        ∧ strContains (fileMissingText portfolio_url) portfolio_url = true)
    ∧ (fileExists = true → sendFileOk = false →
        SendEffect.sendText u (fileFailText portfolio_url) ∈
            process_new_message genResult fileExists sendFileOk portfolio_url text
        ∧ strContains (fileFailText portfolio_url) portfolio_url = true) := by
  simp only [process_new_message, hk, if_true, hu]
  refine ⟨?_, ?_, ?_, ?_⟩
  · cases fileExists <;> cases sendFileOk <;> simp [send_message_to_user]
  · intro hg
    subst hg
    cases fileExists <;> cases sendFileOk <;>
      simp [send_message_to_user, generate_custom_message]
  · intro hf
    subst hf
    exact ⟨by simp [send_message_to_user], fileMissingText_contains portfolio_url⟩
  · intro hf hs
    subst hf; subst hs
    exact ⟨by simp [send_message_to_user], fileFailText_contains portfolio_url⟩

/-- Witness for C8 at a concrete matched post with a failing generative call and
a missing attachment file. -/
theorem matched_post_always_replied_witness :
    SendEffect.sendText "@jane_ux" (generate_custom_message none) ∈
        process_new_message none false true "https://portfolio.example"
          "UI designer needed, DM @jane_ux"
    ∧ (process_new_message none false true "https://portfolio.example"
          "UI designer needed, DM @jane_ux").head? =
        some (SendEffect.sendText "@jane_ux" apologyFallback)
    ∧ SendEffect.sendText "@jane_ux" (fileMissingText "https://portfolio.example") ∈
        process_new_message none false true "https://portfolio.example"
          "UI designer needed, DM @jane_ux" := by
  have h := matched_post_always_replied none false true "https://portfolio.example"
    "UI designer needed, DM @jane_ux" "@jane_ux" (by decide) (by decide)
  exact ⟨h.1, (h.2.1 rfl).1, (h.2.2.1 rfl).1⟩

/-- C6: on a `FloodWaitError` with `retry_after = n`, the message handler sleeps
exactly `n` seconds and the triggering event is attempted exactly once — never
retried or requeued; scenario D (`retry_after = 5`) over two events shows the
dispatcher pausing 5 units and then handling the next event. -/
theorem flood_wait_drops_message :
    (∀ (n ev : Nat),
       message_handler (ProcResult.floodWait n) ev =
         [Effect.processAttempt ev, Effect.logWarn, Effect.sleep n])
    ∧ dispatch (fun e => if e == 0 then ProcResult.floodWait 5 else ProcResult.ok) [0, 1] =
        [Effect.processAttempt 0, Effect.logWarn, Effect.sleep 5, Effect.processAttempt 1]
    ∧ (dispatch (fun e => if e == 0 then ProcResult.floodWait 5 else ProcResult.ok)
        [0, 1]).count (Effect.processAttempt 0) = 1 := by
  exact ⟨fun n ev => rfl, by decide, by decide⟩

/-- C9: every POST to `/webhook` is answered `{"ok": true}` with status 200,
whatever the body and the configured chat id; in particular any two requests get
identical responses, so the response reveals nothing about validation. -/
theorem webhook_response_uniform :
    (∀ (env : Option String) (body : WebhookBody) (s : SlotState),
        (telegram_webhook env body s).2 = okResponse)
    ∧ ∀ (env : Option String) (b₁ b₂ : WebhookBody) (s₁ s₂ : SlotState),
        (telegram_webhook env b₁ s₁).2 = (telegram_webhook env b₂ s₂).2 := by
  have h : ∀ (env : Option String) (body : WebhookBody) (s : SlotState),
      (telegram_webhook env body s).2 = okResponse := by
    intro env body s
    unfold telegram_webhook
    cases body.message.orElse fun _ => body.edited_message with
    | none => rfl
    | some msg =>
        dsimp only
        split <;> rfl
  exact ⟨h, fun env b₁ b₂ s₁ s₂ => (h env b₁ s₁).trans (h env b₂ s₂).symm⟩

/-- C1: a full request cycle against the bot-API listener. The broker clears the
slot, then an authorized-chat message arrives at `main.handle_ui_bot_message`.
The handler sets the shared event (the slot becomes ready), but the assignment
`user_response = update.message.text` rebinds `main.user_response` only —
`ui_bot_handler.user_response`, the binding `request_input_via_bot` returns, is
still `None`, not the received text. The Flask listener, which assigns the real
`ui_bot_handler` attribute, does store the text. -/
theorem handle_ui_bot_message_fills_wrong_global :
    (handle_ui_bot_message (some "12345") ⟨"12345", "+989123456789"⟩
        (request_input_via_bot true "12345" phonePrompt
          ⟨some "stale", true, none⟩).1).1.response_event = true
    ∧ broker_return_value
        (handle_ui_bot_message (some "12345") ⟨"12345", "+989123456789"⟩
          (request_input_via_bot true "12345" phonePrompt
            ⟨some "stale", true, none⟩).1).1 = none
    ∧ (handle_ui_bot_message (some "12345") ⟨"12345", "+989123456789"⟩
        (request_input_via_bot true "12345" phonePrompt
          ⟨some "stale", true, none⟩).1).1.main_user_response = some "+989123456789"
    ∧ broker_return_value
        (telegram_webhook (some "12345") ⟨some ⟨some 12345, some "+989123456789"⟩, none⟩
          (request_input_via_bot true "12345" phonePrompt
            ⟨some "stale", true, none⟩).1).1 = some "+989123456789" := by
  decide

/-- C2 counterexample: with a failing send, `request_input_via_bot` does not
surface a `DeliveryError` and does not abort — it proceeds to wait on the slot,
because `send_telegram_message` catches every exception and returns normally. -/
theorem broker_send_failure_not_surfaced :
    (request_input_via_bot false "12345" phonePrompt ⟨none, false, none⟩).2.2 ≠
        BrokerOutcome.raises PyError.deliveryError
    ∧ (request_input_via_bot false "12345" phonePrompt ⟨none, false, none⟩).2.2 =
        BrokerOutcome.waits := by
  decide

/-- C2 amended: `request_input_via_bot` first clears the Response Slot (value to
`None`, event cleared), then attempts to send the prompt exactly once; a send
failure is caught and logged inside `send_telegram_message` and never surfaced to
the caller, and the broker proceeds to wait on the slot regardless of the send
outcome (no retry, no `DeliveryError`). -/
theorem broker_clears_sends_once_then_waits :
    ∀ (sendOk : Bool) (chat_id prompt : String) (s : SlotState),
      request_input_via_bot sendOk chat_id prompt s =
        ({ s with ui_user_response := none, response_event := false },
         Effect.sendMessage chat_id prompt ::
           (if sendOk then Effect.logInfo else Effect.logError) ::
           [Effect.logInfo, Effect.waitOnSlot],
         BrokerOutcome.waits) := by
  intro sendOk chat_id prompt s
  cases sendOk <;> rfl

/-- Lemma: `authenticate` never performs the channel-joining or monitoring effects
itself: those belong to `start`. -/
theorem authenticate_no_monitor_effects (o : AuthOracle) (ip : Bool) :
    Effect.joinChannels ∉ (authenticate o ip).effects
    ∧ Effect.runUntilDisconnected ∉ (authenticate o ip).effects := by
  rcases o with ⟨s, a, d, e, sc, si, ai⟩
  cases ip <;> cases s <;> cases a <;> cases d <;> cases e <;> cases sc <;>
    cases si <;> cases ai <;> decide

/-- C3: when `sign_in(password='dummy')` raises `SessionPasswordNeededError`,
`authenticate` logs and returns `False` without ever invoking `request_input`
(no password prompt); and whenever the authentication result is not a success,
`start` returns `False` without joining channels or monitoring. -/
theorem twofa_fails_without_prompt_and_start_stops :
    (∀ o : AuthOracle, o.startOk = true → o.authorizedAfterStart = false →
       o.dummySignIn = SignInOutcome.sessionPasswordNeeded →
       o.authorizedAfterInteractive = false →
       (authenticate o false).ret = some false
       ∧ ((authenticate o false).effects.all fun e => !e.isRequestInput) = true)
    ∧ ∀ (initOk : Bool) (o : AuthOracle),
        (authenticate o false).ret ≠ some true →
        (start initOk o).1 = false
        ∧ Effect.joinChannels ∉ (start initOk o).2
        ∧ Effect.runUntilDisconnected ∉ (start initOk o).2 := by
  constructor
  · intro o h1 h2 h3 h4
    rcases o with ⟨s, a, d, e, sc, si, ai⟩
    simp only at h1 h2 h3 h4
    subst h1; subst h2; subst h3; subst h4
    cases e <;> cases sc <;> cases si <;> decide
  · intro initOk o hne
    have hmem := authenticate_no_monitor_effects o false
    unfold start
    cases initOk with
    | false => simp
    | true =>
        dsimp only
        cases hr : (authenticate o false).ret with
        | none => simpa [hr] using hmem
        | some b =>
            cases b with
            | false => simpa [hr] using hmem
            | true => exact absurd hr hne

/-- Witness for C3: the concrete oracle where the endpoint reports 2FA required
and the session stays unauthorized. -/
theorem twofa_fails_without_prompt_witness :
    (authenticate ⟨true, false, SignInOutcome.sessionPasswordNeeded, true, true, true,
        false⟩ false).ret = some false
    ∧ (start true ⟨true, false, SignInOutcome.sessionPasswordNeeded, true, true, true,
        false⟩).1 = false := by
  have h := twofa_fails_without_prompt_and_start_stops
  exact ⟨(h.1 ⟨true, false, SignInOutcome.sessionPasswordNeeded, true, true, true, false⟩
            rfl rfl rfl rfl).1,
         (h.2 true ⟨true, false, SignInOutcome.sessionPasswordNeeded, true, true, true, false⟩
            (by decide)).1⟩

/-- C4: a second `authenticate` call while one is in flight is rejected
immediately — it returns `None` with only a warning logged, no login-flow effect
and no `request_input`, and it leaves the flag set (owned by the active
attempt); and every attempt that actually enters the flow resets
`_auth_in_progress` to `False` on completion, success or failure. -/
theorem auth_reentrancy_guard :
    (∀ o : AuthOracle, authenticate o true = ⟨none, true, [Effect.logWarn]⟩)
    ∧ (∀ o : AuthOracle,
        ((authenticate o true).effects.all fun e => !e.isRequestInput) = true)
    ∧ ∀ o : AuthOracle, (authenticate o false).auth_in_progress = false := by
  refine ⟨fun o => rfl, fun o => rfl, ?_⟩
  intro o
  rcases o with ⟨s, a, d, e, sc, si, ai⟩
  cases s <;> cases a <;> cases d <;> cases e <;> cases sc <;> cases si <;>
    cases ai <;> rfl

/-- C5: an inbound control message whose origin chat id differs from the
configured authorized id leaves the Response Slot completely untouched, in both
the bot-API listener and the Flask webhook listener. -/
theorem unauthorized_message_slot_untouched :
    (∀ (cid : String) (update : Update) (s : SlotState),
       cid ≠ "" → update.chat_id ≠ cid →
       (handle_ui_bot_message (some cid) update s).1 = s)
    ∧ ∀ (cid : String) (body : WebhookBody) (msg : WebhookMsg) (s : SlotState),
        body.message.orElse (fun _ => body.edited_message) = some msg →
        strOfChatId msg.chat_id ≠ cid →
        (telegram_webhook (some cid) body s).1 = s := by
  constructor
  · intro cid update s hcid hne
    unfold handle_ui_bot_message
    simp [hcid, hne]
  · intro cid body msg s hmsg hne
    unfold telegram_webhook
    rw [hmsg]
    simp [Ne.symm hne]

/-- Witness for C5: a message from chat `"999"` against configured id `"12345"`
leaves a ready slot exactly as it was, through both listeners. -/
theorem unauthorized_message_slot_untouched_witness :
    (handle_ui_bot_message (some "12345") ⟨"999", "attack"⟩
        ⟨some "ok", true, none⟩).1 = ⟨some "ok", true, none⟩
    ∧ (telegram_webhook (some "12345") ⟨some ⟨some 999, some "attack"⟩, none⟩
        ⟨some "ok", true, none⟩).1 = ⟨some "ok", true, none⟩ := by
  have h := unauthorized_message_slot_untouched
  exact ⟨h.1 "12345" ⟨"999", "attack"⟩ ⟨some "ok", true, none⟩ (by decide) (by decide),
         h.2 "12345" ⟨some ⟨some 999, some "attack"⟩, none⟩ ⟨some 999, some "attack"⟩
           ⟨some "ok", true, none⟩ rfl (by decide)⟩

/-- C10: with `BOT_TOKEN` or `CHAT_ID` unset, `get_phone_number_from_bot` and
`get_code_from_bot` raise `ValueError` before sending any prompt, and the
Response Slot is left exactly as it was. -/
theorem missing_env_raises_before_prompt :
    ∀ (sendOk : Bool) (bot_token chat_id : Option String) (s : SlotState),
      bot_token = none ∨ chat_id = none →
      get_phone_number_from_bot sendOk bot_token chat_id s =
          (s, [Effect.logError], BrokerOutcome.raises PyError.valueError)
      ∧ get_code_from_bot sendOk bot_token chat_id s =
          (s, [Effect.logError], BrokerOutcome.raises PyError.valueError) := by
  intro sendOk bot_token chat_id s h
  rcases h with h | h <;> subst h <;>
    constructor <;> simp [get_phone_number_from_bot, get_code_from_bot, envFalsy]

/-- Witness for C10: concrete calls with `BOT_TOKEN` unset. -/
theorem missing_env_raises_before_prompt_witness :
    get_phone_number_from_bot true none (some "12345") ⟨some "v", true, none⟩ =
        (⟨some "v", true, none⟩, [Effect.logError], BrokerOutcome.raises PyError.valueError)
    ∧ get_code_from_bot true none (some "12345") ⟨some "v", true, none⟩ =
        (⟨some "v", true, none⟩, [Effect.logError], BrokerOutcome.raises PyError.valueError) := by
  exact missing_env_raises_before_prompt true none (some "12345") ⟨some "v", true, none⟩
    (Or.inl rfl)

end AlertBot
